import Mathlib

/-!
Shallow embedding of the VPA Updater priority subsystem of kubedb/autoscaler:
the update-priority calculator (`getUpdatePriority`, `AddPod`, `GetSortedPods`)
and the pod-eviction admission combinators.

The priority calculator implementation file is not part of the sources at hand;
only its test suite is.  Its definitions below are therefore modelled from the
specification text (section 4.2), and every modelled behaviour is checked
against the concrete scenarios demanded by the in-repository tests
(`TestSortPriority`, `TestUpdatePodWithQuickOOM`, ...).  The eviction-admission
combinators are embedded directly from
`pkg/updater/priority/pod_eviction_admission.go`.

Quantities are carried at full milli precision (millicores for CPU, millibytes
for memory), mirroring `Quantity.MilliValue`; times are integer seconds.
`resourceDiff` is an exact rational in place of the source float64.
-/

namespace Updater

/-- The two resource dimensions the priority calculator considers. -/
inductive ResourceName where
  | cpu
  | memory
deriving DecidableEq

/-- A Kubernetes resource list restricted to the two relevant dimensions.
Each entry is an optional quantity in milli-units (`Quantity.MilliValue`). -/
structure ResourceList where
  cpu : Option ℤ
  memory : Option ℤ
deriving DecidableEq

/-- Quantity stored for a given resource dimension, if any. -/
def ResourceList.get (rl : ResourceList) : ResourceName → Option ℤ
  | .cpu => rl.cpu
  | .memory => rl.memory

/-- A pod container: its name and its resource requests. -/
structure Container where
  name : String
  requests : ResourceList
deriving DecidableEq

/-- Per-container recommendation: target and the recommended bounds. -/
structure RecommendedContainerResources where
  containerName : String
  target : ResourceList
  lowerBound : ResourceList
  upperBound : ResourceList
deriving DecidableEq

/-- A pod recommendation: one entry per recommended container. -/
abbrev RecommendedPodResources := List RecommendedContainerResources

/-- Last termination record of a container (`ContainerStateTerminated`):
reason plus start/finish times in seconds. -/
structure Terminated where
  reason : String
  startedAt : ℤ
  finishedAt : ℤ
deriving DecidableEq

/-- Container status: name plus the optional last termination state. -/
structure ContainerStatus where
  name : String
  lastTerminationTerminated : Option Terminated
deriving DecidableEq

/-- The pod fields the priority calculator reads. -/
structure Pod where
  name : String
  annotations : List (String × String)
  containers : List Container
  containerStatuses : List ContainerStatus
  startTime : Option ℤ
deriving DecidableEq

/-- Container scaling mode of a VPA container resource policy. -/
inductive ContainerScalingMode where
  | auto
  | off
deriving DecidableEq

/-- Per-container resource policy (only the fields the calculator reads). -/
structure ContainerResourcePolicy where
  containerName : String
  mode : Option ContainerScalingMode
deriving DecidableEq

/-- Pod resource policy: the list of container policies. -/
abbrev PodResourcePolicy := List ContainerResourcePolicy

/-- The wildcard container-policy name. -/
def DefaultContainerResourcePolicy : String := "*"

/-- Modelled from the spec: `GetContainerResourcePolicy` returns the policy
entry whose name matches the container, falling back to the last wildcard
(`"*"`) entry when no named entry matches. -/
def GetContainerResourcePolicy (name : String) :
    Option PodResourcePolicy → Option ContainerResourcePolicy
  | none => none
  | some ps =>
    match ps.find? (fun p => p.containerName == name) with
    | some p => some p
    | none => (ps.filter (fun p => p.containerName == DefaultContainerResourcePolicy)).getLast?

/-- The annotation key written by the admission webhook listing the containers
it acted upon. -/
def VpaObservedContainersLabel : String := "vpaObservedContainers"

/-- Value of an annotation on a pod, if present. -/
def annotationValue (pod : Pod) (key : String) : Option String :=
  (pod.annotations.find? (fun kv => kv.1 == key)).map (fun kv => kv.2)

/-- A lowercase RFC 1123 label: nonempty, at most 63 characters, lowercase
alphanumerics or dashes, starting and ending with an alphanumeric. -/
def isDNS1123Label (s : String) : Bool :=
  decide (0 < s.length) && decide (s.length ≤ 63) &&
  s.toList.all (fun c => c.isLower || c.isDigit || c.toNat == 45) &&
  (s.toList.head?.elim false (fun c => c.isLower || c.isDigit)) &&
  (s.toList.getLast?.elim false (fun c => c.isLower || c.isDigit))

/-- Splitting of a character list on the comma-space separator, written with
explicit fuel so that the recursion is structural.  The accumulator holds the
current name reversed. -/
def splitCommaSpace : ℕ → List Char → List Char → List String
  | _, [], cur => [String.mk cur.reverse]
  | 0, cs, cur => [String.mk (cur.reverse ++ cs)]
  | Nat.succ n, c :: rest, cur =>
    if c = ',' then
      match rest with
      | ' ' :: rest2 => String.mk cur.reverse :: splitCommaSpace n rest2 []
      | _ => splitCommaSpace n rest (c :: cur)
    else splitCommaSpace n rest (c :: cur)

/-- Modelled from the spec: parsing of the `VpaObservedContainers` annotation
value.  The empty string denotes the empty container set; otherwise the value
is a comma-space-separated list of names, each of which must be a valid
DNS-1123 label, and an invalid name makes the whole value unparseable. -/
def ParseVpaObservedContainersValue (value : String) : Option (List String) :=
  if value = "" then some []
  else
    let parts := splitCommaSpace value.length value.toList []
    if parts.all isDNS1123Label then some parts else none

/-- Modelled from the spec: the observed-container set `O(pod)`.  Returns a
flag telling whether the annotation was present and parsed, together with the
parsed set (empty when the flag is false). -/
def parseVpaObservedContainers (pod : Pod) : Bool × List String :=
  match annotationValue pod VpaObservedContainersLabel with
  | none => (false, [])
  | some v =>
    match ParseVpaObservedContainersValue v with
    | none => (false, [])
    | some cs => (true, cs)

/-- Whether a container belongs to the observed set `O(pod)`: when the
annotation is present and parses, membership in the parsed set; otherwise
every container is observed. -/
def observedContainer (pod : Pod) (name : String) : Bool :=
  match parseVpaObservedContainers pod with
  | (true, cs) => cs.contains name
  | (false, _) => true

/-- Recommendation entry for a container, if any (`nil` recommendations are
`none`). -/
def GetRecommendationForContainer (name : String) :
    Option RecommendedPodResources → Option RecommendedContainerResources
  | none => none
  | some rec => rec.find? (fun cr => cr.containerName == name)

/-- Priority of a pod, as computed by `getUpdatePriority`. -/
structure PodPriority where
  outsideRecommendedRange : Bool
  scaleUp : Bool
  resourceDiff : ℚ
deriving DecidableEq

/-- Per-resource accumulator: total request and total recommended target over
the observed containers, and whether any target contributed. -/
structure ResAccum where
  totalRequest : ℤ
  totalRecommended : ℤ
  seen : Bool
deriving DecidableEq

/-- Empty per-resource accumulator. -/
def ResAccum.init : ResAccum := ⟨0, 0, false⟩

/-- Whole-priority accumulator: range/scale-up flags and the two per-resource
accumulators. -/
structure PrioAccum where
  outside : Bool
  scaleUp : Bool
  cpu : ResAccum
  mem : ResAccum
deriving DecidableEq

/-- Empty priority accumulator. -/
def PrioAccum.init : PrioAccum := ⟨false, false, ResAccum.init, ResAccum.init⟩

/-- Modelled from the spec: the contribution of one container and one resource
dimension.  A missing target contributes nothing.  A present target adds to
the totals; a missing request marks the container as scaling up and outside
range, a present one is compared against the target and against the
recommended bounds. -/
def stepResource (c : Container) (crec : RecommendedContainerResources)
    (r : ResourceName) (acc : ResAccum) : ResAccum × Bool × Bool :=
  match crec.target.get r with
  | none => (acc, false, false)
  | some tgt =>
    match c.requests.get r with
    | some req =>
      let outside :=
        (match crec.lowerBound.get r with
         | some lb => decide (req < lb)
         | none => false) ||
        (match crec.upperBound.get r with
         | some ub => decide (ub < req)
         | none => false)
      (⟨acc.totalRequest + req, acc.totalRecommended + tgt, true⟩, decide (req < tgt), outside)
    | none => (⟨acc.totalRequest, acc.totalRecommended + tgt, true⟩, true, true)

/-- Modelled from the spec: process one container.  Containers outside the
observed set, and containers without a recommendation entry, are skipped. -/
def stepContainer (pod : Pod) (recommendation : Option RecommendedPodResources)
    (acc : PrioAccum) (c : Container) : PrioAccum :=
  if observedContainer pod c.name then
    match GetRecommendationForContainer c.name recommendation with
    | none => acc
    | some crec =>
      let cpuStep := stepResource c crec .cpu acc.cpu
      let memStep := stepResource c crec .memory acc.mem
      ⟨acc.outside || cpuStep.2.2 || memStep.2.2,
       acc.scaleUp || cpuStep.2.1 || memStep.2.1,
       cpuStep.1, memStep.1⟩
  else acc

/-- Modelled from the spec: per-resource relative divergence
`|totalRequest − totalRecommended| / max(totalRequest, 1)`; a resource with no
recommended target contributes `0`.  Written with `mkRat` over the integer
totals so that it evaluates by kernel reduction; `addRat_eq_add` below relates
the rational arithmetic used here to the ambient field operations. -/
def resourceScore (acc : ResAccum) : ℚ :=
  if acc.seen then
    mkRat ((acc.totalRequest - acc.totalRecommended).natAbs : ℤ)
      (if acc.totalRequest < 1 then 1 else acc.totalRequest).toNat
  else 0

/-- Exact rational addition written on the numerator/denominator
representation (kernel-reducible); equal to `+` by `addRat_eq_add`. -/
def addRat (a b : ℚ) : ℚ := mkRat (a.num * b.den + b.num * a.den) (a.den * b.den)

/-- Modelled from the spec: `getUpdatePriority` computes, over the observed
containers that carry a recommendation, the range flag, the scale-up flag and
the summed per-resource relative divergence. -/
def getUpdatePriority (pod : Pod) (recommendation : Option RecommendedPodResources) :
    PodPriority :=
  let acc := pod.containers.foldl (stepContainer pod recommendation) PrioAccum.init
  ⟨acc.outside, acc.scaleUp, addRat (resourceScore acc.cpu) (resourceScore acc.mem)⟩

/-- Quick-OOM window: ten minutes, in seconds. -/
def quickOOMThreshold : ℤ := 10 * 60

/-- Long-lived pod threshold: twelve hours, in seconds. -/
def podLifetimeUpdateThreshold : ℤ := 12 * 60 * 60

/-- Whether the container scaling mode resolved by the resource policy is
`Off`. -/
def scalingModeOff (policy : Option PodResourcePolicy) (name : String) : Bool :=
  match GetContainerResourcePolicy name policy with
  | some crp =>
    match crp.mode with
    | some m => decide (m = ContainerScalingMode.off)
    | none => false
  | none => false

/-- Modelled from the spec: quick-OOM detection.  Some container status in the
observed set, whose resolved scaling mode is not `Off`, recorded a last
termination with reason `OOMKilled` and lifetime at most `quickOOMThreshold`. -/
def isQuickOOM (policy : Option PodResourcePolicy) (pod : Pod) : Bool :=
  pod.containerStatuses.any fun cs =>
    observedContainer pod cs.name &&
    !scalingModeOff policy cs.name &&
    (match cs.lastTerminationTerminated with
     | some t => t.reason == "OOMKilled" && decide (t.finishedAt - t.startedAt ≤ quickOOMThreshold)
     | none => false)

/-- Configuration of the priority calculator. -/
structure UpdateConfig where
  minChangePriority : ℚ
deriving DecidableEq

/-- Default configuration: `MinChangePriority = 0.1`. -/
def defaultUpdateConfig : UpdateConfig := ⟨mkRat 1 10⟩

/-- Modelled from the spec: the eviction-eligibility decision taken by
`AddPod`.  A pod passes when its request is outside the recommended range, or
a quick OOM happened, or it is long-lived with a resource diff of at least
`MinChangePriority`; a quick-OOM pod whose resources would not change
(`resourceDiff = 0`) is dropped. -/
def AddPodDecision (policy : Option PodResourcePolicy) (cfg : UpdateConfig)
    (pod : Pod) (recommendation : Option RecommendedPodResources) (now : ℤ) : Bool :=
  let prio := getUpdatePriority pod recommendation
  let quickOOM := isQuickOOM policy pod
  let lifetimeGate : Bool :=
    if !prio.outsideRecommendedRange && !quickOOM then
      match pod.startTime with
      | none => false
      | some st =>
        decide (podLifetimeUpdateThreshold < now - st) &&
        decide (cfg.minChangePriority ≤ prio.resourceDiff)
    else true
  lifetimeGate && !(quickOOM && decide (prio.resourceDiff = 0))

/-- A pod registered by the calculator together with its priority and the
processed recommendation. -/
structure PrioritizedPod where
  pod : Pod
  priority : PodPriority
  recommendation : Option RecommendedPodResources
deriving DecidableEq

/-- Modelled from the spec: `AddPod` registers a candidate pod when the
eligibility decision passes, keeping its priority and recommendation. -/
def AddPod (policy : Option PodResourcePolicy) (cfg : UpdateConfig)
    (state : List PrioritizedPod) (pod : Pod)
    (recommendation : Option RecommendedPodResources) (now : ℤ) : List PrioritizedPod :=
  if AddPodDecision policy cfg pod recommendation now then
    state ++ [⟨pod, getUpdatePriority pod recommendation, recommendation⟩]
  else state

/-- Rank of the scale-up flag: scale-up pods come first. -/
def scaleRank (b : Bool) : ℕ := if b then 0 else 1

/-- Lexicographic byte-wise comparison of character lists (kernel-reducible
name order used for tie-breaking). -/
def charListLE : List Char → List Char → Bool
  | [], _ => true
  | _ :: _, [] => false
  | a :: as, b :: bs =>
    if a.toNat = b.toNat then charListLE as bs
    else decide (a.toNat < b.toNat)

/-- Modelled from the spec: the ranking order on registered pods — scale-up
before scale-down, then strictly higher resource diff first, ties broken by
pod name. -/
def priorityBefore (a b : PrioritizedPod) : Prop :=
  scaleRank a.priority.scaleUp < scaleRank b.priority.scaleUp ∨
  (scaleRank a.priority.scaleUp = scaleRank b.priority.scaleUp ∧
    (b.priority.resourceDiff < a.priority.resourceDiff ∨
      (a.priority.resourceDiff = b.priority.resourceDiff ∧
        charListLE a.pod.name.toList b.pod.name.toList = true)))

instance (a b : PrioritizedPod) : Decidable (priorityBefore a b) := by
  unfold priorityBefore; infer_instance

/-- Modelled from the spec: `GetSortedPods` sorts the registered pods by the
ranking order and keeps those the admission admits. -/
def GetSortedPods (admission : Pod → Option RecommendedPodResources → Bool)
    (state : List PrioritizedPod) : List Pod :=
  ((List.insertionSort priorityBefore state).filter
    (fun pp => admission pp.pod pp.recommendation)).map (fun pp => pp.pod)

/-- The default no-op eviction admission (`noopPodEvictionAdmission.Admit`):
admits every pod. -/
def noopAdmission : Pod → Option RecommendedPodResources → Bool := fun _ _ => true

/-!  Eviction-admission combinators, embedded from
`pkg/updater/priority/pod_eviction_admission.go`.  Components carry their
`Admit` predicate together with the observable effect traces of their
`LoopInit` and `CleanUp` calls, so that invocation order is expressible. -/

/-- An eviction-admission component of the sequential chain. -/
structure AdmissionComponent where
  admits : Pod → Option RecommendedPodResources → Bool
  loopInit : List Pod → List String
  cleanUp : List String

/-- Admit of `sequentialPodEvictionAdmission`: consults the components in
list order and returns false at the first refusal. -/
def sequentialAdmits : List AdmissionComponent → Pod → Option RecommendedPodResources → Bool
  | [], _, _ => true
  | a :: rest, pod, r => if a.admits pod r then sequentialAdmits rest pod r else false

/-- Number of components whose Admit the sequential loop invokes. -/
def seqConsulted : List AdmissionComponent → Pod → Option RecommendedPodResources → ℕ
  | [], _, _ => 0
  | a :: rest, pod, r => if a.admits pod r then 1 + seqConsulted rest pod r else 1

/-- LoopInit of `sequentialPodEvictionAdmission`: invokes every component's
LoopInit in list order. -/
def sequentialLoopInit (comps : List AdmissionComponent) (allLivePods : List Pod) : List String :=
  comps.foldl (fun t a => t ++ a.loopInit allLivePods) []

/-- CleanUp of `sequentialPodEvictionAdmission`: invokes every component's
CleanUp in list order. -/
def sequentialCleanUp (comps : List AdmissionComponent) : List String :=
  comps.foldl (fun t a => t ++ a.cleanUp) []

/-!  Truncated-quantity variant used to settle the precision claim. -/

/-- Modelled from the spec: truncation of a milli-quantity to whole integer
units, the comparison the spec calls observably wrong. -/
def truncateToUnits (q : ℤ) : ℤ := q / 1000 * 1000

/-- Truncation of a resource list to whole integer units. -/
def ResourceList.truncate (rl : ResourceList) : ResourceList :=
  ⟨rl.cpu.map truncateToUnits, rl.memory.map truncateToUnits⟩

/-- Truncation of every request of a pod to whole integer units. -/
def Pod.truncate (pod : Pod) : Pod :=
  ⟨pod.name, pod.annotations,
    pod.containers.map (fun c => ⟨c.name, c.requests.truncate⟩),
    pod.containerStatuses, pod.startTime⟩

/-- Truncation of every recommended quantity to whole integer units. -/
def truncateRecommendation : Option RecommendedPodResources → Option RecommendedPodResources
  | none => none
  | some rec => some (rec.map fun cr =>
      ⟨cr.containerName, cr.target.truncate, cr.lowerBound.truncate, cr.upperBound.truncate⟩)

/-!  Concrete fixtures, taken from the scenarios of the in-repository test
suite (`update_priority_calculator_test.go`). -/

/-- Test container with the given CPU/memory requests in milli-units. -/
def tCont (name : String) (cpu mem : Option ℤ) : Container := ⟨name, ⟨cpu, mem⟩⟩

/-- Test pod starting at time 0 with no annotations or statuses. -/
def tPod (name : String) (cs : List Container) : Pod := ⟨name, [], cs, [], some 0⟩

/-- Single-container recommendation for `container1`. -/
def tRec1 (target lower upper : ResourceList) : Option RecommendedPodResources :=
  some [⟨"container1", target, lower, upper⟩]

/-- Resource list with no bounds set. -/
def noBounds : ResourceList := ⟨none, none⟩

/-- Timestamp 24 hours after pod start. -/
def n24 : ℤ := 24 * 3600

/-- Timestamp 13 hours after pod start. -/
def n13 : ℤ := 13 * 3600

/-- Timestamp 11 hours after pod start. -/
def n11 : ℤ := 11 * 3600

/-- MinChangePriority 0.5, as in the long/short-lived and quick-OOM tests. -/
def cfg05 : UpdateConfig := ⟨mkRat 1 2⟩

/-- S1 pod with a 2-CPU request. -/
def s1pod1 : Pod := tPod "POD1" [tCont "container1" (some 2000) none]

/-- S1 pod with a 4-CPU request. -/
def s1pod2 : Pod := tPod "POD2" [tCont "container1" (some 4000) none]

/-- S1 pod with a 1-CPU request. -/
def s1pod3 : Pod := tPod "POD3" [tCont "container1" (some 1000) none]

/-- S1 pod with a 3-CPU request. -/
def s1pod4 : Pod := tPod "POD4" [tCont "container1" (some 3000) none]

/-- S1 recommendation: target 10 CPU. -/
def s1rec : Option RecommendedPodResources := tRec1 ⟨some 10000, none⟩ noBounds noBounds

/-- S1 calculator state: the four pods added in order. -/
def s1state : List PrioritizedPod :=
  AddPod none defaultUpdateConfig
    (AddPod none defaultUpdateConfig
      (AddPod none defaultUpdateConfig
        (AddPod none defaultUpdateConfig [] s1pod1 s1rec n24) s1pod2 s1rec n24)
      s1pod3 s1rec n24) s1pod4 s1rec n24

/-- Decrease-test pod with a 4-CPU request. -/
def dpod1 : Pod := tPod "POD1" [tCont "container1" (some 4000) none]

/-- Decrease-test pod with a 7-CPU request. -/
def dpod2 : Pod := tPod "POD2" [tCont "container1" (some 7000) none]

/-- Decrease-test pod with a 10-CPU request. -/
def dpod3 : Pod := tPod "POD3" [tCont "container1" (some 10000) none]

/-- Decrease-test recommendation: target 5 CPU. -/
def drec : Option RecommendedPodResources := tRec1 ⟨some 5000, none⟩ noBounds noBounds

/-- Decrease-test calculator state. -/
def dstate : List PrioritizedPod :=
  AddPod none defaultUpdateConfig
    (AddPod none defaultUpdateConfig
      (AddPod none defaultUpdateConfig [] dpod1 drec n24) dpod2 drec n24) dpod3 drec n24

/-- Recommendation with target 5 CPU and bounds [1, 6] CPU. -/
def recRange : Option RecommendedPodResources :=
  tRec1 ⟨some 5000, none⟩ ⟨some 1000, none⟩ ⟨some 6000, none⟩

/-- Long/short-lived test pod with a 4-CPU request. -/
def lpod1 : Pod := tPod "POD1" [tCont "container1" (some 4000) none]

/-- Long/short-lived test pod with a 1-CPU request. -/
def lpod2 : Pod := tPod "POD2" [tCont "container1" (some 1000) none]

/-- Container status recording an OOM kill that finished 3 minutes before
`n11` after the given lifetime in seconds, with the given status name. -/
def oomStatus (name : String) (lifetime : ℤ) : ContainerStatus :=
  ⟨name, some ⟨"OOMKilled", n11 - 3 * 60 - lifetime, n11 - 3 * 60⟩⟩

/-- S6 pod: 4-CPU request, OOM kill with a 2-minute lifetime. -/
def oomPod : Pod :=
  ⟨"POD1", [], [tCont "container1" (some 4000) none], [oomStatus "" 120], some 0⟩

/-- S6 second pod: 4-CPU request, OOM kill with a 57-minute lifetime. -/
def oomPodLongRun : Pod :=
  ⟨"POD1", [], [tCont "container1" (some 4000) none], [oomStatus "" (57 * 60)], some 0⟩

/-- One gibibyte in millibytes. -/
def gi : ℤ := 1073741824000

/-- Quick-OOM no-change pod: requests 4 CPU and 8Gi, OOM kill with a
2-minute lifetime. -/
def podNoChange : Pod :=
  ⟨"POD1", [], [tCont "container1" (some 4000) (some (8 * gi))], [oomStatus "" 120], some 0⟩

/-- Quick-OOM no-change recommendation: target equals the requests, bounds
[2, 5] CPU and [5Gi, 10Gi]. -/
def recNoChange : Option RecommendedPodResources :=
  tRec1 ⟨some 4000, some (8 * gi)⟩ ⟨some 2000, some (5 * gi)⟩ ⟨some 5000, some (10 * gi)⟩

/-- Pod with a named OOM-killed container status and the given annotations. -/
def obsPod (ann : List (String × String)) : Pod :=
  ⟨"POD1", ann, [tCont "container1" (some 4000) none], [oomStatus "container1" 120], some 0⟩

/-- Resource policy with a single entry. -/
def polOf (name : String) (m : ContainerScalingMode) : Option PodResourcePolicy :=
  some [⟨name, some m⟩]

/-- One megabyte in millibytes. -/
def mb : ℤ := 1000000000

/-- Multi-container test pod 1: one container requesting 3 CPU and 10MB. -/
def mcPod1 : Pod := tPod "POD1" [tCont "container1" (some 3000) (some (10 * mb))]

/-- Multi-container test pod 2: containers requesting 4 CPU/10MB and
2 CPU/20MB. -/
def mcPod2 : Pod :=
  ⟨"POD2", [],
    [tCont "container1" (some 4000) (some (10 * mb)), tCont "container2" (some 2000) (some (20 * mb))],
    [], some 0⟩

/-- Multi-container recommendation: targets 6 CPU/20MB and 4 CPU/20MB. -/
def mcRec : Option RecommendedPodResources :=
  some [⟨"container1", ⟨some 6000, some (20 * mb)⟩, noBounds, noBounds⟩,
        ⟨"container2", ⟨some 4000, some (20 * mb)⟩, noBounds, noBounds⟩]

/-- Multi-container calculator state. -/
def mcState : List PrioritizedPod :=
  AddPod none defaultUpdateConfig
    (AddPod none defaultUpdateConfig [] mcPod1 mcRec n24) mcPod2 mcRec n24

/-- Priority-diff test pod: 1-CPU request, with the given annotations. -/
def diffPod (ann : List (String × String)) : Pod :=
  ⟨"POD1", ann, [tCont "container1" (some 1000) none], [], some 0⟩

/-- Milli-precision pod: 10m CPU request. -/
def milliPod : Pod := tPod "POD1" [tCont "container1" (some 10) none]

/-- Milli-precision recommendation: 900m CPU target. -/
def milliRec : Option RecommendedPodResources := tRec1 ⟨some 900, none⟩ noBounds noBounds

/-- Pod of the nil-recommendation test: requests 5 CPU and 10 millibytes. -/
def noRecPod : Pod := tPod "POD1" [tCont "container1" (some 5000) (some 10)]

/-- Recommendation with target 10 CPU and no bounds. -/
def rec10 : Option RecommendedPodResources := tRec1 ⟨some 10000, none⟩ noBounds noBounds

/-- Pod of the container-resource-policy quick-OOM test: observed `container1`
with an OOM kill of 2-minute lifetime. -/
def polPod : Pod := obsPod [("vpaObservedContainers", "container1")]

/-!  Helper lemmas. -/

theorem charListLE_trans (x y z : List Char) :
    charListLE x y = true → charListLE y z = true → charListLE x z = true := by
  induction x generalizing y z with
  | nil => intro _ _; rfl
  | cons a as ih =>
    cases y with
    | nil => intro h; exact absurd h (by simp [charListLE])
    | cons b bs =>
      cases z with
      | nil => intro _ h2; exact absurd h2 (by simp [charListLE])
      | cons c cs =>
        unfold charListLE
        by_cases hab : a.toNat = b.toNat
        · by_cases hbc : b.toNat = c.toNat
          · rw [if_pos hab, if_pos hbc, if_pos (hab.trans hbc)]
            exact ih bs cs
          · rw [if_pos hab, if_neg hbc,
              if_neg (show ¬ a.toNat = c.toNat from fun e => hbc (hab.symm.trans e))]
            intro _ h2
            rw [hab]
            exact h2
        · by_cases hbc : b.toNat = c.toNat
          · rw [if_neg hab, if_pos hbc,
              if_neg (show ¬ a.toNat = c.toNat from fun e => hab (e.trans hbc.symm))]
            intro h1 _
            rw [← hbc]
            exact h1
          · rw [if_neg hab, if_neg hbc]
            intro h1 h2
            have hac : a.toNat < c.toNat :=
              (of_decide_eq_true h1).trans (of_decide_eq_true h2)
            rw [if_neg (Nat.ne_of_lt hac)]
            exact decide_eq_true hac

theorem charListLE_total (x y : List Char) :
    charListLE x y = true ∨ charListLE y x = true := by
  induction x generalizing y with
  | nil => exact Or.inl rfl
  | cons a as ih =>
    cases y with
    | nil => exact Or.inr rfl
    | cons b bs =>
      unfold charListLE
      by_cases h : a.toNat = b.toNat
      · rw [if_pos h, if_pos h.symm]
        exact ih bs
      · rw [if_neg h, if_neg (fun e => h e.symm)]
        rcases Nat.lt_or_ge a.toNat b.toNat with hl | hg
        · exact Or.inl (decide_eq_true hl)
        · exact Or.inr (decide_eq_true
            (lt_of_le_of_ne hg (fun e => h e.symm)))

theorem priorityBefore_trans (a b c : PrioritizedPod) :
    priorityBefore a b → priorityBefore b c → priorityBefore a c := by
  unfold priorityBefore
  intro hab hbc
  rcases hab with h1 | ⟨e1, d1⟩
  · rcases hbc with h2 | ⟨e2, _⟩
    · exact Or.inl (h1.trans h2)
    · exact Or.inl (lt_of_lt_of_le h1 e2.le)
  · rcases hbc with h2 | ⟨e2, d2⟩
    · exact Or.inl (lt_of_le_of_lt e1.le h2)
    · refine Or.inr ⟨e1.trans e2, ?_⟩
      rcases d1 with h1 | ⟨f1, n1⟩
      · rcases d2 with h2 | ⟨f2, _⟩
        · exact Or.inl (h2.trans h1)
        · exact Or.inl (lt_of_le_of_lt f2.ge h1)
      · rcases d2 with h2 | ⟨f2, n2⟩
        · exact Or.inl (lt_of_lt_of_le h2 f1.ge)
        · exact Or.inr ⟨f1.trans f2, charListLE_trans _ _ _ n1 n2⟩

theorem priorityBefore_total (a b : PrioritizedPod) :
    priorityBefore a b ∨ priorityBefore b a := by
  unfold priorityBefore
  rcases lt_trichotomy (scaleRank a.priority.scaleUp) (scaleRank b.priority.scaleUp) with h | h | h
  · exact Or.inl (Or.inl h)
  · rcases lt_trichotomy a.priority.resourceDiff b.priority.resourceDiff with hd | hd | hd
    · exact Or.inr (Or.inr ⟨h.symm, Or.inl hd⟩)
    · rcases charListLE_total a.pod.name.toList b.pod.name.toList with hn | hn
      · exact Or.inl (Or.inr ⟨h, Or.inr ⟨hd, hn⟩⟩)
      · exact Or.inr (Or.inr ⟨h.symm, Or.inr ⟨hd.symm, hn⟩⟩)
    · exact Or.inl (Or.inr ⟨h, Or.inl hd⟩)
  · exact Or.inr (Or.inl h)

instance : IsTrans PrioritizedPod priorityBefore := ⟨priorityBefore_trans⟩

instance : IsTotal PrioritizedPod priorityBefore := ⟨priorityBefore_total⟩

theorem insertionSort_priorityBefore_pairwise (state : List PrioritizedPod) :
    (List.insertionSort priorityBefore state).Pairwise priorityBefore :=
  List.sorted_insertionSort priorityBefore state

theorem addRat_eq_add (a b : ℚ) : addRat a b = a + b := (Rat.add_def' a b).symm

theorem GetSortedPods_addPod_empty (policy : Option PodResourcePolicy) (cfg : UpdateConfig)
    (pod : Pod) (rec : Option RecommendedPodResources) (now : ℤ) :
    GetSortedPods noopAdmission (AddPod policy cfg [] pod rec now) =
      if AddPodDecision policy cfg pod rec now then [pod] else [] := by
  unfold AddPod GetSortedPods noopAdmission
  by_cases h : AddPodDecision policy cfg pod rec now
  · simp [h]
  · simp [h]

theorem AddPodDecision_quickOOM_true (policy : Option PodResourcePolicy) (cfg : UpdateConfig)
    (pod : Pod) (rec : Option RecommendedPodResources) (now : ℤ)
    (hq : isQuickOOM policy pod = true) :
    AddPodDecision policy cfg pod rec now =
      !decide ((getUpdatePriority pod rec).resourceDiff = 0) := by
  unfold AddPodDecision
  simp [hq]

theorem AddPodDecision_quickOOM_false (policy : Option PodResourcePolicy) (cfg : UpdateConfig)
    (pod : Pod) (rec : Option RecommendedPodResources) (now : ℤ)
    (hq : isQuickOOM policy pod = false) :
    AddPodDecision policy cfg pod rec now =
      ((getUpdatePriority pod rec).outsideRecommendedRange ||
        (match pod.startTime with
         | none => false
         | some st =>
           decide (podLifetimeUpdateThreshold < now - st) &&
           decide (cfg.minChangePriority ≤ (getUpdatePriority pod rec).resourceDiff))) := by
  unfold AddPodDecision
  by_cases ho : (getUpdatePriority pod rec).outsideRecommendedRange
  · simp [hq, ho]
  · simp only [hq, ho, Bool.not_false, Bool.and_true, Bool.and_false, Bool.false_or,
      Bool.false_and, Bool.not_true, Bool.and_self, Bool.true_and]
    cases pod.startTime <;> simp

theorem foldl_stepContainer_skip (pod : Pod) (rec : Option RecommendedPodResources)
    (l : List Container) (acc : PrioAccum)
    (h : ∀ c ∈ l, observedContainer pod c.name = true →
      GetRecommendationForContainer c.name rec = none) :
    l.foldl (stepContainer pod rec) acc = acc := by
  induction l generalizing acc with
  | nil => rfl
  | cons c cs ih =>
    have hstep : stepContainer pod rec acc c = acc := by
      unfold stepContainer
      by_cases ho : observedContainer pod c.name
      · simp [ho, h c (List.mem_cons_self c cs) ho]
      · simp [ho]
    simp only [List.foldl_cons, hstep]
    exact ih acc (fun x hx => h x (List.mem_cons_of_mem c hx))

theorem getUpdatePriority_skip (pod : Pod) (rec : Option RecommendedPodResources)
    (h : ∀ c ∈ pod.containers, observedContainer pod c.name = true →
      GetRecommendationForContainer c.name rec = none) :
    getUpdatePriority pod rec = ⟨false, false, 0⟩ := by
  unfold getUpdatePriority
  rw [foldl_stepContainer_skip pod rec pod.containers PrioAccum.init h]
  simp [PrioAccum.init, ResAccum.init, resourceScore, addRat_eq_add]

theorem sequentialAdmits_all (comps : List AdmissionComponent) (pod : Pod)
    (r : Option RecommendedPodResources) :
    sequentialAdmits comps pod r = comps.all (fun a => a.admits pod r) := by
  induction comps with
  | nil => rfl
  | cons a rest ih =>
    unfold sequentialAdmits
    by_cases h : a.admits pod r <;> simp [h, ih]

theorem seqConsulted_firstFalse (comps : List AdmissionComponent) (pod : Pod)
    (r : Option RecommendedPodResources) :
    seqConsulted comps pod r =
      min comps.length ((comps.takeWhile (fun a => a.admits pod r)).length + 1) := by
  induction comps with
  | nil => rfl
  | cons a rest ih =>
    unfold seqConsulted
    by_cases h : a.admits pod r
    · rw [if_pos h, ih]
      simp only [List.length_cons, List.takeWhile_cons, if_pos h, List.length_cons]
      omega
    · rw [if_neg h]
      simp only [List.length_cons, List.takeWhile_cons, if_neg h, List.length_nil]
      omega

theorem foldl_append_trace {α β : Type} (f : α → List β) (l : List α) (acc : List β) :
    l.foldl (fun t a => t ++ f a) acc = acc ++ (l.map f).flatten := by
  induction l generalizing acc with
  | nil => simp
  | cons a rest ih => simp [ih, List.append_assoc]

theorem GetSortedPods_noop (state : List PrioritizedPod) :
    GetSortedPods noopAdmission state =
      (List.insertionSort priorityBefore state).map (fun pp => pp.pod) := by
  unfold GetSortedPods noopAdmission
  simp

/-!  Claim theorems. -/

/-- C2: even when quick-OOM applies, a pod whose resource diff is zero (its
requests already equal the recommended target for every observed container)
is not returned by GetSortedPods. -/
theorem C2_quickOOM_no_change_not_returned (policy : Option PodResourcePolicy)
    (cfg : UpdateConfig) (pod : Pod) (rec : Option RecommendedPodResources) (now : ℤ)
    (hq : isQuickOOM policy pod = true)
    (hd : (getUpdatePriority pod rec).resourceDiff = 0) :
    GetSortedPods noopAdmission (AddPod policy cfg [] pod rec now) = [] := by
  rw [GetSortedPods_addPod_empty, AddPodDecision_quickOOM_true policy cfg pod rec now hq]
  simp [hd]

/-- Witness for C2: the quick-OOM test pod whose requests equal the target is
quick-OOM with zero diff and is not returned. -/
theorem C2_quickOOM_no_change_witness :
    isQuickOOM none podNoChange = true ∧
    (getUpdatePriority podNoChange recNoChange).resourceDiff = 0 ∧
    GetSortedPods noopAdmission (AddPod none defaultUpdateConfig [] podNoChange recNoChange n11) = [] :=
  ⟨by decide, by decide,
    C2_quickOOM_no_change_not_returned none defaultUpdateConfig podNoChange recNoChange n11
      (by decide) (by decide)⟩

/-- C3: GetSortedPods ranks by scale-up first, then strictly higher resource
diff, ties by pod name (the `priorityBefore` order): the sorted state is
pairwise ordered and a permutation of the registered pods, and the two
concrete scenarios order as the tests demand. -/
theorem C3_ranking :
    (∀ state : List PrioritizedPod,
      (List.insertionSort priorityBefore state).Pairwise priorityBefore) ∧
    (∀ state : List PrioritizedPod, (List.insertionSort priorityBefore state).Perm state) ∧
    GetSortedPods noopAdmission s1state = [s1pod3, s1pod1, s1pod4, s1pod2] ∧
    GetSortedPods noopAdmission dstate = [dpod1, dpod3, dpod2] := by
  exact ⟨fun state => insertionSort_priorityBefore_pairwise state,
    fun state => List.perm_insertionSort priorityBefore state, by decide, by decide⟩

/-- C6: resourceDiff pools per-resource totals over observed containers: the
single container doubling CPU and memory yields 2, the two-container pod with
totals 6 CPU/30MB against 10 CPU/40MB yields 1, and the pods rank
accordingly. -/
theorem C6_resource_diff_weighting :
    (getUpdatePriority mcPod1 mcRec).resourceDiff = 2 ∧
    (getUpdatePriority mcPod2 mcRec).resourceDiff = 1 ∧
    GetSortedPods noopAdmission mcState = [mcPod1, mcPod2] :=
  ⟨by decide, by decide, by decide⟩

/-- C7: a container whose resolved scaling mode is Off — named or via the
wildcard policy — cannot trigger quick-OOM eligibility, while mode Auto
(named or wildcard) leaves it intact. -/
theorem C7_scaling_mode_off_skipped :
    GetSortedPods noopAdmission
      (AddPod (polOf "container1" .auto) cfg05 [] polPod recRange n11) = [polPod] ∧
    GetSortedPods noopAdmission
      (AddPod (polOf "container1" .off) cfg05 [] polPod recRange n11) = [] ∧
    GetSortedPods noopAdmission
      (AddPod (polOf "*" .auto) cfg05 [] polPod recRange n11) = [polPod] ∧
    GetSortedPods noopAdmission
      (AddPod (polOf "*" .off) cfg05 [] polPod recRange n11) = [] :=
  ⟨by decide, by decide, by decide, by decide⟩

/-- C9: quantities are compared at milli precision: the 10m-CPU pod with
900m target is returned, while the whole-unit-truncated variant has
resourceDiff 0 and is not returned. -/
theorem C9_milli_precision :
    GetSortedPods noopAdmission (AddPod none defaultUpdateConfig [] milliPod milliRec n24) =
      [milliPod] ∧
    (getUpdatePriority milliPod.truncate (truncateRecommendation milliRec)).resourceDiff = 0 ∧
    GetSortedPods noopAdmission
      (AddPod none defaultUpdateConfig [] milliPod.truncate (truncateRecommendation milliRec) n24)
      = [] :=
  ⟨by decide, by decide, by decide⟩

/-- C10: getUpdatePriority is total on a nil recommendation, and whenever no
observed container has a recommendation entry the priority is
`⟨false, false, 0⟩` and the pod is not returned absent quick-OOM (with a
positive MinChangePriority). -/
theorem C10_no_recommendation_safe (policy : Option PodResourcePolicy)
    (cfg : UpdateConfig) (pod : Pod) (rec : Option RecommendedPodResources) (now : ℤ)
    (hrec : ∀ c ∈ pod.containers, observedContainer pod c.name = true →
      GetRecommendationForContainer c.name rec = none) :
    getUpdatePriority pod rec = ⟨false, false, 0⟩ ∧
    (isQuickOOM policy pod = false → 0 < cfg.minChangePriority →
      GetSortedPods noopAdmission (AddPod policy cfg [] pod rec now) = []) := by
  have hp := getUpdatePriority_skip pod rec hrec
  refine ⟨hp, fun hq hmin => ?_⟩
  rw [GetSortedPods_addPod_empty, AddPodDecision_quickOOM_false policy cfg pod rec now hq, hp]
  cases pod.startTime <;> simp [not_le.mpr hmin]

/-- Witness for C10: the nil-recommendation test pod gets zero priority and is
not returned. -/
theorem C10_no_recommendation_witness :
    getUpdatePriority noRecPod none = ⟨false, false, 0⟩ ∧
    GetSortedPods noopAdmission (AddPod none defaultUpdateConfig [] noRecPod none n24) = [] :=
  ⟨(C10_no_recommendation_safe none defaultUpdateConfig noRecPod none n24 (by decide)).1,
   (C10_no_recommendation_safe none defaultUpdateConfig noRecPod none n24 (by decide)).2
      (by decide) (by decide)⟩

/-- C1 (counterexample): a pod with a quick OOM — an observed container,
no Off policy, OOMKilled with a 2-minute lifetime — whose requests lie within
[lowerBound, upperBound], is nevertheless not returned by GetSortedPods,
because its resourceDiff is 0; eligibility does not hold regardless of
resourceDiff. -/
theorem C1_quickOOM_counterexample :
    isQuickOOM none podNoChange = true ∧
    (getUpdatePriority podNoChange recNoChange).outsideRecommendedRange = false ∧
    GetSortedPods noopAdmission
      (AddPod none defaultUpdateConfig [] podNoChange recNoChange n11) = [] :=
  ⟨by decide, by decide, by decide⟩

/-- C1 (amended): a pod with an observed container status whose resolved
scaling mode is not Off and whose last termination was OOMKilled with lifetime
at most 10 minutes is returned by GetSortedPods — within range or not,
whatever its age — provided its resourceDiff is nonzero; and when every
recorded termination lifetime exceeds 10 minutes, quick-OOM does not apply,
so a within-range pod younger than 12 hours is not returned. -/
theorem C1_quickOOM_eligibility :
    (∀ (policy : Option PodResourcePolicy) (cfg : UpdateConfig) (pod : Pod)
        (rec : Option RecommendedPodResources) (now : ℤ)
        (cs : ContainerStatus) (t : Terminated),
      cs ∈ pod.containerStatuses →
      observedContainer pod cs.name = true →
      scalingModeOff policy cs.name = false →
      cs.lastTerminationTerminated = some t →
      t.reason = "OOMKilled" →
      t.finishedAt - t.startedAt ≤ quickOOMThreshold →
      (getUpdatePriority pod rec).resourceDiff ≠ 0 →
      pod ∈ GetSortedPods noopAdmission (AddPod policy cfg [] pod rec now)) ∧
    (∀ (policy : Option PodResourcePolicy) (cfg : UpdateConfig) (pod : Pod)
        (rec : Option RecommendedPodResources) (now st : ℤ),
      (pod.containerStatuses.all fun cs =>
        match cs.lastTerminationTerminated with
        | some t => decide (quickOOMThreshold < t.finishedAt - t.startedAt)
        | none => true) = true →
      (getUpdatePriority pod rec).outsideRecommendedRange = false →
      pod.startTime = some st →
      now - st ≤ podLifetimeUpdateThreshold →
      GetSortedPods noopAdmission (AddPod policy cfg [] pod rec now) = []) := by
  constructor
  · intro policy cfg pod rec now cs t hmem hobs hoff ht hr hle hd
    have hq : isQuickOOM policy pod = true := by
      unfold isQuickOOM
      rw [List.any_eq_true]
      refine ⟨cs, hmem, ?_⟩
      simp [hobs, hoff, ht, hr, hle]
    rw [GetSortedPods_addPod_empty, AddPodDecision_quickOOM_true policy cfg pod rec now hq]
    simp [hd]
  · intro policy cfg pod rec now st hlong ho hst hyoung
    have hq : isQuickOOM policy pod = false := by
      unfold isQuickOOM
      rw [List.any_eq_false]
      intro cs hmem
      have hcs := List.all_eq_true.mp hlong cs hmem
      cases hts : cs.lastTerminationTerminated with
      | none => simp [hts]
      | some t =>
        rw [hts] at hcs
        simp only [decide_eq_true_eq] at hcs
        simp [hts, not_le.mpr hcs]
    rw [GetSortedPods_addPod_empty, AddPodDecision_quickOOM_false policy cfg pod rec now hq,
      ho, hst]
    simp [not_lt.mpr hyoung]

/-- Witness for C1: the S6 quick-OOM pod (2-minute lifetime) is returned even
though it is within range and short-lived; the 57-minute-lifetime variant is
not returned. -/
theorem C1_quickOOM_eligibility_witness :
    oomPod ∈ GetSortedPods noopAdmission (AddPod none cfg05 [] oomPod recRange n11) ∧
    GetSortedPods noopAdmission (AddPod none cfg05 [] oomPodLongRun recRange n11) = [] :=
  ⟨C1_quickOOM_eligibility.1 none cfg05 oomPod recRange n11 (oomStatus "" 120)
      ⟨"OOMKilled", n11 - 3 * 60 - 120, n11 - 3 * 60⟩ (by decide) (by decide) (by decide)
      (by decide) (by decide) (by decide) (by decide),
   C1_quickOOM_eligibility.2 none cfg05 oomPodLongRun recRange n11 0
      (by decide) (by decide) (by decide) (by decide)⟩

/-- C4: with no quick OOM, a pod whose requests are within the recommended
range is returned exactly when it has lived longer than 12 hours and its
resourceDiff is at least MinChangePriority; and a pod younger than 12 hours is
returned only if outside the recommended range. -/
theorem C4_lifetime_threshold (policy : Option PodResourcePolicy) (cfg : UpdateConfig)
    (pod : Pod) (rec : Option RecommendedPodResources) (now : ℤ)
    (hq : isQuickOOM policy pod = false) :
    ((getUpdatePriority pod rec).outsideRecommendedRange = false →
      (pod ∈ GetSortedPods noopAdmission (AddPod policy cfg [] pod rec now) ↔
        ∃ st, pod.startTime = some st ∧ podLifetimeUpdateThreshold < now - st ∧
          cfg.minChangePriority ≤ (getUpdatePriority pod rec).resourceDiff)) ∧
    (∀ st, pod.startTime = some st → now - st ≤ podLifetimeUpdateThreshold →
      pod ∈ GetSortedPods noopAdmission (AddPod policy cfg [] pod rec now) →
      (getUpdatePriority pod rec).outsideRecommendedRange = true) := by
  rw [GetSortedPods_addPod_empty, AddPodDecision_quickOOM_false policy cfg pod rec now hq]
  constructor
  · intro ho
    rw [ho]
    cases hst : pod.startTime with
    | none => simp [hst]
    | some st =>
      by_cases h1 : podLifetimeUpdateThreshold < now - st <;>
        by_cases h2 : cfg.minChangePriority ≤ (getUpdatePriority pod rec).resourceDiff <;>
          simp [hst, h1, h2]
  · intro st hst hyoung hmem
    by_contra ho
    rw [Bool.not_eq_true] at ho
    rw [ho, hst] at hmem
    simp [not_lt.mpr hyoung] at hmem

/-- Witness for C4: the 1-CPU within-range pod aged 13 hours with diff 4 is
returned under MinChangePriority 0.5. -/
theorem C4_lifetime_threshold_witness :
    lpod2 ∈ GetSortedPods noopAdmission (AddPod none cfg05 [] lpod2 recRange n13) :=
  ((C4_lifetime_threshold none cfg05 lpod2 recRange n13 (by decide)).1 (by decide)).mpr
    ⟨0, rfl, by decide, by decide⟩

/-- C5: the observed set is the parsed VpaObservedContainers annotation if
present and parseable, otherwise all containers; an unobserved container can
trigger neither quick-OOM nor a resourceDiff contribution, so the explicitly
empty annotation yields diff 0 and, with an OOMKilled container, no eviction,
while absent, matching or unparseable annotations leave the container in. -/
theorem C5_observed_containers :
    (∀ (policy : Option PodResourcePolicy) (pod : Pod),
      (pod.containerStatuses.all fun cs => !observedContainer pod cs.name) = true →
      isQuickOOM policy pod = false) ∧
    (∀ (pod : Pod) (rec : Option RecommendedPodResources),
      (pod.containers.all fun c => !observedContainer pod c.name) = true →
      getUpdatePriority pod rec = ⟨false, false, 0⟩) ∧
    (getUpdatePriority (diffPod []) rec10).resourceDiff = 9 ∧
    (getUpdatePriority (diffPod [("vpaObservedContainers", "container1")]) rec10).resourceDiff
      = 9 ∧
    (getUpdatePriority (diffPod [("vpaObservedContainers", "")]) rec10).resourceDiff = 0 ∧
    (getUpdatePriority (diffPod [("vpaObservedContainers", "abcd;;")]) rec10).resourceDiff
      = 9 ∧
    GetSortedPods noopAdmission
      (AddPod none cfg05 [] (obsPod [("vpaObservedContainers", "")]) recRange n11) = [] := by
  refine ⟨?_, ?_, by decide, by decide, by decide, by decide, by decide⟩
  · intro policy pod hall
    unfold isQuickOOM
    rw [List.any_eq_false]
    intro cs hmem
    have hcs := List.all_eq_true.mp hall cs hmem
    rw [Bool.not_eq_true'] at hcs
    simp [hcs]
  · intro pod rec hall
    apply getUpdatePriority_skip
    intro c hc ho
    have hcs := List.all_eq_true.mp hall c hc
    rw [Bool.not_eq_true'] at hcs
    rw [ho] at hcs
    cases hcs

/-- Witness for C5: the empty-annotation OOM pod triggers no quick-OOM and the
empty-annotation diff pod gets zero priority. -/
theorem C5_observed_containers_witness :
    isQuickOOM none (obsPod [("vpaObservedContainers", "")]) = false ∧
    getUpdatePriority (diffPod [("vpaObservedContainers", "")]) rec10 = ⟨false, false, 0⟩ :=
  ⟨C5_observed_containers.1 none (obsPod [("vpaObservedContainers", "")]) (by decide),
   C5_observed_containers.2.1 (diffPod [("vpaObservedContainers", "")]) rec10 (by decide)⟩

/-- C8: the sequential admission chain conjoins its components' Admit results
in list order, consulting only up to and including the first refusal; its
LoopInit and CleanUp invoke every component in list order; the default no-op
admission admits every pod, so GetSortedPods with it filters out nothing. -/
theorem C8_sequential_admission :
    (∀ (comps : List AdmissionComponent) (pod : Pod) (r : Option RecommendedPodResources),
      sequentialAdmits comps pod r = comps.all (fun a => a.admits pod r)) ∧
    (∀ (comps : List AdmissionComponent) (pod : Pod) (r : Option RecommendedPodResources),
      seqConsulted comps pod r =
        min comps.length ((comps.takeWhile (fun a => a.admits pod r)).length + 1)) ∧
    (∀ (comps : List AdmissionComponent) (pods : List Pod),
      sequentialLoopInit comps pods = (comps.map (fun a => a.loopInit pods)).flatten) ∧
    (∀ comps : List AdmissionComponent,
      sequentialCleanUp comps = (comps.map (fun a => a.cleanUp)).flatten) ∧
    (∀ (pod : Pod) (r : Option RecommendedPodResources), noopAdmission pod r = true) ∧
    (∀ state : List PrioritizedPod,
      GetSortedPods noopAdmission state =
        (List.insertionSort priorityBefore state).map (fun pp => pp.pod)) :=
  ⟨sequentialAdmits_all, seqConsulted_firstFalse,
   fun comps pods => by simpa using foldl_append_trace (fun a => a.loopInit pods) comps [],
   fun comps => by simpa using foldl_append_trace (fun a => a.cleanUp) comps [],
   fun _ _ => rfl, GetSortedPods_noop⟩

end Updater
